import Mathlib

/-!
Shallow embedding of the DINO pretraining repository
(computationalpathologygroup/dino): the multi-crop augmentation pipeline of
`src/dino/data/augmentations.py` and the training orchestration of
`src/dino/patch.py` (`main`), together with theorems settling the
specification claims about them.
-/

namespace Dino

/-! ### Augmentations — src/dino/data/augmentations.py -/

/-- One configured torchvision-style transform of `augmentations.py`; each
constructor carries exactly the parameters the source passes. -/
inductive Transfo where
  | randomResizedCrop (size : ℕ) (scaleLo scaleHi : ℚ)
  | randomHorizontalFlip (p : ℚ)
  | colorJitterApply (p brightness contrast saturation hue : ℚ)
  | randomGrayscale (p : ℚ)
  | gaussianBlur (p radius_min radius_max : ℚ)
  | solarization (p : ℚ)
  | toTensor
  | normalizeChannels (m1 m2 m3 s1 s2 s3 : ℚ)
  deriving DecidableEq, Repr

/-- `GaussianBlur.__call__` (augmentations.py lines 17-26): the blur is applied
exactly when the uniform draw `r` satisfies `r <= self.prob`. -/
def gaussianBlurFires (p r : ℚ) : Bool := r ≤ p

/-- `Solarization.__call__` (augmentations.py lines 37-41): solarize is applied
exactly when the uniform draw `r` satisfies `r < self.p`. -/
def solarizationFires (p r : ℚ) : Bool := r < p

/-- `flip_and_color_jitter` (augmentations.py lines 46-59): horizontal flip
p=0.5, RandomApply of ColorJitter(0.4, 0.4, 0.2, 0.1) with p=0.8, and
RandomGrayscale p=0.2. -/
def flip_and_color_jitter : List Transfo :=
  [.randomHorizontalFlip (1/2),
   .colorJitterApply (4/5) (2/5) (2/5) (1/5) (1/10),
   .randomGrayscale (1/5)]

/-- `normalize` (augmentations.py lines 60-65): ToTensor followed by
Normalize((0.485, 0.456, 0.406), (0.229, 0.224, 0.225)). -/
def normalizeOps : List Transfo :=
  [.toTensor,
   .normalizeChannels (485/1000) (456/1000) (406/1000) (229/1000) (224/1000) (225/1000)]

/-- `global_crop_size = 224` (augmentations.py line 67). -/
def global_crop_size : ℕ := 224

/-- `local_crop_size = 96` (augmentations.py line 68). -/
def local_crop_size : ℕ := 96

/-- The three crop pipelines held by `PatchDataAugmentationDINO`. -/
structure PatchDataAugmentationDINO where
  global_transfo1 : List Transfo
  global_transfo2 : List Transfo
  local_transfo : List Transfo
  local_crops_number : ℕ
  deriving DecidableEq, Repr

/-- `PatchDataAugmentationDINO.__init__` (augmentations.py lines 45-110):
first global crop at size 224 with GaussianBlur(1.0); second global crop at
size 224 with GaussianBlur(0.1) then Solarization(0.2); local crops at size 96
with GaussianBlur(p=0.5). GaussianBlur keeps its default radii 0.1 and 2.0. -/
def PatchDataAugmentationDINO.init (globalScaleLo globalScaleHi localScaleLo localScaleHi : ℚ)
    (local_crops_number : ℕ) : PatchDataAugmentationDINO :=
  { global_transfo1 :=
      .randomResizedCrop global_crop_size globalScaleLo globalScaleHi ::
        flip_and_color_jitter ++ [.gaussianBlur 1 (1/10) 2] ++ normalizeOps
    global_transfo2 :=
      .randomResizedCrop global_crop_size globalScaleLo globalScaleHi ::
        flip_and_color_jitter ++ [.gaussianBlur (1/10) (1/10) 2, .solarization (1/5)]
          ++ normalizeOps
    local_transfo :=
      .randomResizedCrop local_crop_size localScaleLo localScaleHi ::
        flip_and_color_jitter ++ [.gaussianBlur (1/2) (1/10) 2] ++ normalizeOps
    local_crops_number := local_crops_number }

/-- `PatchDataAugmentationDINO.__call__` (augmentations.py lines 112-118): the
two global crops followed by `local_crops_number` local crops, each returned
crop represented by the transform pipeline that produced it. -/
def PatchDataAugmentationDINO.call (t : PatchDataAugmentationDINO) : List (List Transfo) :=
  [t.global_transfo1, t.global_transfo2] ++ List.replicate t.local_crops_number t.local_transfo

/-- Output spatial size of a crop pipeline: the size of its (first)
RandomResizedCrop. -/
def cropOutputSize : List Transfo → Option ℕ
  | [] => none
  | .randomResizedCrop s _ _ :: _ => some s
  | _ :: ts => cropOutputSize ts

/-- Probability parameter of the (first) GaussianBlur of a pipeline. -/
def blurProb : List Transfo → Option ℚ
  | [] => none
  | .gaussianBlur p _ _ :: _ => some p
  | _ :: ts => blurProb ts

/-- Probability parameter of the (first) Solarization of a pipeline. -/
def solarizeProb : List Transfo → Option ℚ
  | [] => none
  | .solarization p :: _ => some p
  | _ :: ts => solarizeProb ts

/-- The flip / color-jitter / grayscale transforms of a pipeline, in order. -/
def jitterOps (ts : List Transfo) : List Transfo :=
  ts.filter fun t =>
    match t with
    | .randomHorizontalFlip _ => true
    | .colorJitterApply _ _ _ _ _ => true
    | .randomGrayscale _ => true
    | _ => false

/-- The tensor-conversion / normalization transforms of a pipeline, in order. -/
def normOps (ts : List Transfo) : List Transfo :=
  ts.filter fun t =>
    match t with
    | .toTensor => true
    | .normalizeChannels _ _ _ _ _ _ => true
    | _ => false

/-! ### Startup phases of `main` — src/dino/patch.py lines 59-344 -/

/-- The successive phases of `main` before the epoch loop, in source order. -/
inductive Phase where
  | loadConfig
  | initDistributed
  | genRunId
  | broadcastRunId
  | prepareDirs
  | writeCfg
  | loadTuneData
  | buildAugmentation
  | loadDataset
  | buildDataLoader
  | buildNetworks
  | buildLoss
  | buildOptimizer
  | buildScaler
  | checkEpochsAssert
  | buildSchedules
  | loadSnapshot
  | buildEarlyStopping
  | trainLoop
  deriving DecidableEq, Repr

/-- Phases `main` executes before reaching the `epochs >= warmup_epochs`
assertion (patch.py lines 59-259). -/
def phasesBeforeAssert : List Phase :=
  [.loadConfig, .initDistributed, .genRunId, .broadcastRunId, .prepareDirs, .writeCfg,
   .loadTuneData, .buildAugmentation, .loadDataset, .buildDataLoader,
   .buildNetworks, .buildLoss, .buildOptimizer, .buildScaler]

/-- Phases `main` executes after the assertion passes (patch.py lines 264-344). -/
def phasesAfterAssert : List Phase :=
  [.buildSchedules, .loadSnapshot, .buildEarlyStopping, .trainLoop]

/-- The phases `main` executes, with the error raised by the
`assert cfg.optim.epochs >= cfg.optim.warmup_epochs` at patch.py lines 261-263:
when `epochs < warmup_epochs`, everything up to and including the assertion has
run and the AssertionError ends the process (no retry, no later phase). -/
def mainStartup (epochs warmup_epochs : ℕ) : List Phase × Option String :=
  if epochs < warmup_epochs then
    (phasesBeforeAssert ++ [Phase.checkEpochsAssert],
     some "AssertionError: nepochs must be greater than or equal to warmup_epochs")
  else
    (phasesBeforeAssert ++ [Phase.checkEpochsAssert] ++ phasesAfterAssert, none)

/-! ### Run identifier and output directory — src/dino/patch.py lines 71-111 -/

/-- Run identifier on each rank before any broadcast (patch.py lines 71-82):
rank 0 generates the identifier `gen`, every other rank holds `""`. -/
def initialRunId (gen : String) (rank : ℕ) : String :=
  if rank = 0 then gen else ""

/-- `torch.distributed.broadcast_object_list(obj, 0, ...)` (patch.py lines
84-89): every rank ends up with rank 0's object. -/
def broadcastFromRankZero (ids : ℕ → String) : ℕ → String :=
  fun _ => ids 0

/-- The run identifier each rank holds after startup: broadcast from rank 0 in
distributed mode, the local value otherwise. -/
def runIdAfterStartup (distributed : Bool) (gen : String) (rank : ℕ) : String :=
  if distributed then broadcastFromRankZero (initialRunId gen) rank
  else initialRunId gen rank

/-- `output_dir = Path(cfg.train.output_dir, run_id)` (patch.py line 91). -/
def runOutputDir (base run_id : String) : String :=
  base ++ "/" ++ run_id

/-! ### Output-directory preparation — src/dino/patch.py lines 99-105 -/

/-- Observable state of the run's output directory. -/
structure DirState where
  present : Bool
  entries : List String
  deriving DecidableEq, Repr

/-- Filesystem actions taken while preparing the output directory. -/
inductive FsAction where
  | rmtree (removed : List String)
  | mkdirParents
  deriving DecidableEq, Repr

/-- patch.py lines 99-105: when `cfg.train.resume` is false and this is the
main process, a pre-existing output directory is deleted wholesale
(`shutil.rmtree`) and recreated; otherwise it is created if absent. Returns the
resulting directory state and the actions performed. -/
def prepareOutputDir (resume isMain : Bool) (d : DirState) : DirState × List FsAction :=
  if !resume && isMain then
    if d.present then
      ({ present := true, entries := [] }, [.rmtree d.entries, .mkdirParents])
    else
      ({ present := true, entries := [] }, [.mkdirParents])
  else (d, [])

/-! ### Learning-rate scaling — src/dino/patch.py lines 264-271 -/

/-- Arguments of a `cosine_scheduler` call. -/
structure CosineSchedArgs where
  base_value : ℚ
  final_value : ℚ
  epochs : ℕ
  niter_per_ep : ℕ
  warmup_epochs : ℕ
  deriving DecidableEq, Repr

/-- `base_lr = cfg.optim.lr * (cfg.train.batch_size_per_gpu * get_world_size()) / 256.0`
(patch.py line 264). -/
def base_lr (lr : ℚ) (batch_size_per_gpu world_size : ℕ) : ℚ :=
  lr * ((batch_size_per_gpu : ℚ) * (world_size : ℚ)) / 256

/-- The `cosine_scheduler` call building `lr_schedule` (patch.py lines
265-271): its base value is the linearly scaled `base_lr`, not `cfg.optim.lr`
itself. -/
def lrScheduleArgs (lr min_lr : ℚ) (batch_size_per_gpu world_size epochs
    niter_per_ep warmup_epochs : ℕ) : CosineSchedArgs :=
  { base_value := base_lr lr batch_size_per_gpu world_size
    final_value := min_lr
    epochs := epochs
    niter_per_ep := niter_per_ep
    warmup_epochs := warmup_epochs }

/-! ### The epoch loop — src/dino/patch.py lines 285-455 -/

/-- The configuration fields the epoch loop reads. `tune_every = 0` and
`save_every = 0` model the Python falsy values that disable tuning and
periodic saving. -/
structure LoopCfg where
  epochs : ℕ
  tune_every : ℕ
  tune_enable : Bool
  save_every : ℕ
  deriving DecidableEq, Repr

/-- Main-process side effects of one iteration of the epoch loop, each tagged
with the epoch it belongs to. -/
inductive Event where
  | trainEpoch (e : ℕ)
  | buildSnapshot (e : ℕ)
  | tuneEpoch (e : ℕ)
  | earlyStopCall (e : ℕ)
  | stopBreak (e : ℕ)
  | writeNumberedSnapshot (e : ℕ)
  | writeLogLine (e : ℕ)
  deriving DecidableEq, Repr

/-- The epoch an event belongs to. -/
def Event.epochOf : Event → ℕ
  | .trainEpoch e => e
  | .buildSnapshot e => e
  | .tuneEpoch e => e
  | .earlyStopCall e => e
  | .stopBreak e => e
  | .writeNumberedSnapshot e => e
  | .writeLogLine e => e

/-- The snapshot mapping built at the end of epoch `e` stores `"epoch": e`
(patch.py line 376). -/
def snapshotEpochField (e : ℕ) : ℕ := e

/-- `epochs_run = snapshot["epoch"]` when restoring from the rolling
`latest.pt` snapshot (patch.py line 295). -/
def restoredEpochsRun (snapshotEpoch : ℕ) : ℕ := snapshotEpoch

/-- `cfg.tune.tune_every and epoch % cfg.tune.tune_every == 0`
(patch.py lines 387-390). -/
def tuneDue (cfg : LoopCfg) (e : ℕ) : Bool :=
  cfg.tune_every != 0 && e % cfg.tune_every == 0

/-- `stop = True` exactly when `early_stopping.early_stop and cfg.tune.enable`
(patch.py lines 414-415). -/
def stopDecision (cfg : LoopCfg) (earlyStopFlag : Bool) : Bool :=
  earlyStopFlag && cfg.tune_enable

/-- `cfg.train.save_every and epoch % cfg.train.save_every == 0 and not
save_path.is_file()` (patch.py lines 426-430); `fs` lists the epochs whose
numbered snapshot file already exists. -/
def saveDue (cfg : LoopCfg) (fs : List ℕ) (e : ℕ) : Bool :=
  cfg.save_every != 0 && e % cfg.save_every == 0 && !(fs.contains e)

/-- Main-process events of one iteration of the epoch loop (patch.py lines
344-455), in source order: train, build the snapshot mapping, tune when due,
call the early-stopping controller, then either break (when the stop flag was
set) or write the numbered snapshot when due and append the JSON log line. -/
def epochEvents (cfg : LoopCfg) (esFlag : ℕ → Bool) (fs : List ℕ) (e : ℕ) : List Event :=
  [.trainEpoch e, .buildSnapshot e]
    ++ (if tuneDue cfg e then [.tuneEpoch e] else [])
    ++ [.earlyStopCall e]
    ++ (if stopDecision cfg (esFlag e) then [.stopBreak e]
        else (if saveDue cfg fs e then [.writeNumberedSnapshot e] else [])
          ++ [.writeLogLine e])

/-- Runs the epoch loop from epoch `e` for `fuel` remaining epochs, threading
the set of existing numbered snapshot files, and returns the event trace: the
stop flag set at an epoch ends the loop right after that epoch's
early-stopping call (the `break` at patch.py lines 417-421), a numbered save
adds the epoch to the file set. -/
def runFrom (cfg : LoopCfg) (esFlag : ℕ → Bool) : ℕ → ℕ → List ℕ → List Event
  | 0, _, _ => []
  | fuel + 1, e, fs =>
    if stopDecision cfg (esFlag e) then epochEvents cfg esFlag fs e
    else
      epochEvents cfg esFlag fs e
        ++ runFrom cfg esFlag fuel (e + 1) (if saveDue cfg fs e then e :: fs else fs)

/-- `for epoch in range(epochs_run, cfg.optim.epochs)` (patch.py lines
332-344): the loop body runs for epochs `epochs_run, ..., cfg.epochs - 1`
unless the stop flag ends it first. -/
def runLoop (cfg : LoopCfg) (esFlag : ℕ → Bool) (epochs_run : ℕ) (fs : List ℕ) :
    List Event :=
  runFrom cfg esFlag (cfg.epochs - epochs_run) epochs_run fs

end Dino

namespace Dino

/-- C4: the patch augmentation pipeline returns exactly `2 + K` crops, the
first two at the global output size 224 and the remaining `K` at the local
output size 96. -/
theorem patch_augmentation_crop_count_and_sizes
    (gl gh ll lh : ℚ) (K : ℕ) :
    (PatchDataAugmentationDINO.init gl gh ll lh K).call.length = 2 + K ∧
    (PatchDataAugmentationDINO.init gl gh ll lh K).call.map cropOutputSize =
      some 224 :: some 224 :: List.replicate K (some 96) := by
  constructor
  · simp [PatchDataAugmentationDINO.call, PatchDataAugmentationDINO.init]
    omega
  · simp [PatchDataAugmentationDINO.call, PatchDataAugmentationDINO.init,
      cropOutputSize, global_crop_size, local_crop_size, List.map_replicate]

/-- C5: the first global crop blurs with probability 1.0, the second with
probability 0.1 plus solarization with probability 0.2, local crops blur with
probability 0.5; no other pipeline solarizes; all three pipelines share the
same flip/color-jitter/grayscale transforms and the same normalization; and a
blur of probability 1 fires on every uniform draw in [0, 1). -/
theorem patch_augmentation_blur_solarize_profile
    (gl gh ll lh : ℚ) (K : ℕ) :
    blurProb (PatchDataAugmentationDINO.init gl gh ll lh K).global_transfo1 = some 1 ∧
    blurProb (PatchDataAugmentationDINO.init gl gh ll lh K).global_transfo2 = some (1/10) ∧
    solarizeProb (PatchDataAugmentationDINO.init gl gh ll lh K).global_transfo2 = some (1/5) ∧
    blurProb (PatchDataAugmentationDINO.init gl gh ll lh K).local_transfo = some (1/2) ∧
    solarizeProb (PatchDataAugmentationDINO.init gl gh ll lh K).global_transfo1 = none ∧
    solarizeProb (PatchDataAugmentationDINO.init gl gh ll lh K).local_transfo = none ∧
    jitterOps (PatchDataAugmentationDINO.init gl gh ll lh K).global_transfo1
      = flip_and_color_jitter ∧
    jitterOps (PatchDataAugmentationDINO.init gl gh ll lh K).global_transfo2
      = flip_and_color_jitter ∧
    jitterOps (PatchDataAugmentationDINO.init gl gh ll lh K).local_transfo
      = flip_and_color_jitter ∧
    normOps (PatchDataAugmentationDINO.init gl gh ll lh K).global_transfo1 = normalizeOps ∧
    normOps (PatchDataAugmentationDINO.init gl gh ll lh K).global_transfo2 = normalizeOps ∧
    normOps (PatchDataAugmentationDINO.init gl gh ll lh K).local_transfo = normalizeOps ∧
    (∀ r : ℚ, 0 ≤ r → r < 1 → gaussianBlurFires 1 r = true) := by
  refine ⟨?_, ?_, ?_, ?_, ?_, ?_, ?_, ?_, ?_, ?_, ?_, ?_, ?_⟩
  all_goals
    first
    | (intro r h0 h1
       simp only [gaussianBlurFires, decide_eq_true_eq]
       exact le_of_lt h1)
    | simp [PatchDataAugmentationDINO.init, blurProb, solarizeProb, jitterOps, normOps,
        flip_and_color_jitter, normalizeOps]

/-- C5 witness: the profile evaluated at a concrete configuration, and a blur
of probability 1 firing at the concrete draw 1/2. -/
theorem patch_augmentation_blur_solarize_profile_witness :
    blurProb (PatchDataAugmentationDINO.init (2/5) 1 (1/20) (2/5) 8).global_transfo1
      = some 1 ∧ gaussianBlurFires 1 (1/2) = true := by
  have h := patch_augmentation_blur_solarize_profile (2/5) 1 (1/20) (2/5) 8
  exact ⟨h.1, h.2.2.2.2.2.2.2.2.2.2.2.2 (1/2) (by norm_num) (by norm_num)⟩

/-! ### Helper lemmas about the epoch loop -/

/-- Every event emitted by one loop iteration carries that iteration's epoch. -/
theorem epochOf_mem_epochEvents {cfg : LoopCfg} {esFlag : ℕ → Bool} {fs : List ℕ} {e : ℕ}
    {ev : Event} (h : ev ∈ epochEvents cfg esFlag fs e) : ev.epochOf = e := by
  cases ht : tuneDue cfg e <;> cases hs : stopDecision cfg (esFlag e) <;>
    cases hd : saveDue cfg fs e <;>
      simp only [epochEvents, ht, hs, hd, Bool.false_eq_true, if_true, if_false,
        List.mem_append, List.mem_cons, List.not_mem_nil, or_false, false_or] at h <;>
      casesm* _ ∨ _ <;> subst_vars <;> rfl

/-- Every event of the trace from epoch `e` onward carries an epoch `≥ e`. -/
theorem le_epochOf_mem_runFrom {cfg : LoopCfg} {esFlag : ℕ → Bool} :
    ∀ {fuel e fs} {ev : Event},
      ev ∈ runFrom cfg esFlag fuel e fs → e ≤ ev.epochOf := by
  intro fuel
  induction fuel with
  | zero => intro e fs ev h; simp [runFrom] at h
  | succ n ih =>
    intro e fs ev h
    rw [runFrom] at h
    by_cases hs : stopDecision cfg (esFlag e) = true
    · simp only [hs, if_true] at h
      exact le_of_eq (epochOf_mem_epochEvents h).symm
    · simp only [hs, if_false, Bool.false_eq_true, List.mem_append] at h
      rcases h with h | h
      · exact le_of_eq (epochOf_mem_epochEvents h).symm
      · exact le_trans (Nat.le_succ e) (ih h)

/-- With the stop flag raised at epoch `a`, the iteration's events include the
training and the early-stopping call but no numbered-snapshot write and no log
line. -/
theorem mem_epochEvents_stop {cfg : LoopCfg} {esFlag : ℕ → Bool} {fs : List ℕ} {a : ℕ}
    (h : stopDecision cfg (esFlag a) = true) (x : ℕ) :
    Event.trainEpoch a ∈ epochEvents cfg esFlag fs a ∧
    Event.earlyStopCall a ∈ epochEvents cfg esFlag fs a ∧
    Event.writeNumberedSnapshot x ∉ epochEvents cfg esFlag fs a ∧
    Event.writeLogLine x ∉ epochEvents cfg esFlag fs a := by
  cases ht : tuneDue cfg a <;> simp [epochEvents, ht, h]

/-- With the stop flag down at epoch `a`, the iteration writes its log line,
writes the numbered snapshot exactly when due, and emits no break. -/
theorem mem_epochEvents_noStop {cfg : LoopCfg} {esFlag : ℕ → Bool} {fs : List ℕ} {a : ℕ}
    (h : stopDecision cfg (esFlag a) = false) :
    Event.writeLogLine a ∈ epochEvents cfg esFlag fs a ∧
    (Event.writeNumberedSnapshot a ∈ epochEvents cfg esFlag fs a ↔ saveDue cfg fs a = true) ∧
    (∀ x, Event.stopBreak x ∉ epochEvents cfg esFlag fs a) := by
  cases ht : tuneDue cfg a <;> cases hd : saveDue cfg fs a <;>
    simp [epochEvents, ht, hd, h]

/-- The Boolean save condition of patch.py lines 426-430, as a proposition. -/
theorem saveDue_iff {cfg : LoopCfg} {fs : List ℕ} {e : ℕ} :
    saveDue cfg fs e = true ↔
      (cfg.save_every ≠ 0 ∧ e % cfg.save_every = 0 ∧ e ∉ fs) := by
  simp [saveDue, List.contains]
  tauto

/-- When the stop flag never fires, every epoch of the remaining range is
trained. -/
theorem runFrom_trains_all_of_no_stop {cfg : LoopCfg} {esFlag : ℕ → Bool}
    (hstop : ∀ a, stopDecision cfg (esFlag a) = false) :
    ∀ fuel a fs e, a ≤ e → e < a + fuel →
      Event.trainEpoch e ∈ runFrom cfg esFlag fuel a fs := by
  intro fuel
  induction fuel with
  | zero => intro a fs e h1 h2; omega
  | succ n ih =>
    intro a fs e h1 h2
    rw [runFrom]
    simp only [hstop a, Bool.false_eq_true, if_false, List.mem_append]
    rcases eq_or_lt_of_le h1 with rfl | hlt
    · left; simp [epochEvents]
    · right; exact ih (a + 1) _ e hlt (by omega)

/-- When the stop flag never fires, the trace holds no break event. -/
theorem no_stopBreak_of_no_stop {cfg : LoopCfg} {esFlag : ℕ → Bool}
    (hstop : ∀ a, stopDecision cfg (esFlag a) = false) :
    ∀ fuel a fs e, Event.stopBreak e ∉ runFrom cfg esFlag fuel a fs := by
  intro fuel
  induction fuel with
  | zero => intro a fs e h; simp [runFrom] at h
  | succ n ih =>
    intro a fs e h
    rw [runFrom] at h
    simp only [hstop a, Bool.false_eq_true, if_false, List.mem_append] at h
    rcases h with h | h
    · exact (mem_epochEvents_noStop (hstop a)).2.2 e h
    · exact ih (a + 1) _ e h

/-- A break at epoch `e` comes after epoch `e`'s training and early-stopping
call, and the trace holds neither a numbered-snapshot write nor a log line for
epoch `e`, nor any later training. -/
theorem stopBreak_mem_runFrom_spec {cfg : LoopCfg} {esFlag : ℕ → Bool} :
    ∀ {fuel a fs e}, Event.stopBreak e ∈ runFrom cfg esFlag fuel a fs →
      Event.trainEpoch e ∈ runFrom cfg esFlag fuel a fs ∧
      Event.earlyStopCall e ∈ runFrom cfg esFlag fuel a fs ∧
      Event.writeNumberedSnapshot e ∉ runFrom cfg esFlag fuel a fs ∧
      Event.writeLogLine e ∉ runFrom cfg esFlag fuel a fs ∧
      ∀ b, e < b → Event.trainEpoch b ∉ runFrom cfg esFlag fuel a fs := by
  intro fuel
  induction fuel with
  | zero => intro a fs e h; simp [runFrom] at h
  | succ n ih =>
    intro a fs e h
    rw [runFrom] at h ⊢
    by_cases hs : stopDecision cfg (esFlag a) = true
    · simp only [hs, if_true] at h ⊢
      have he : e = a := epochOf_mem_epochEvents h
      subst he
      obtain ⟨h1, h2, h3, h4⟩ := mem_epochEvents_stop hs e
      refine ⟨h1, h2, h3, h4, ?_⟩
      intro b hb hmem
      have hba : b = e := by
        have := epochOf_mem_epochEvents hmem
        simpa [Event.epochOf] using this
      omega
    · have hs' : stopDecision cfg (esFlag a) = false := by
        cases hsd : stopDecision cfg (esFlag a)
        · rfl
        · exact absurd hsd hs
      simp only [hs', Bool.false_eq_true, if_false, List.mem_append] at h ⊢
      rcases h with h | h
      · exact absurd h ((mem_epochEvents_noStop hs').2.2 e)
      · have hae : a + 1 ≤ e := by
          simpa [Event.epochOf] using le_epochOf_mem_runFrom h
        obtain ⟨g1, g2, g3, g4, g5⟩ := ih h
        refine ⟨Or.inr g1, Or.inr g2, ?_, ?_, ?_⟩
        · rintro (hmem | hmem)
          · have := epochOf_mem_epochEvents hmem
            simp [Event.epochOf] at this
            omega
          · exact g3 hmem
        · rintro (hmem | hmem)
          · have := epochOf_mem_epochEvents hmem
            simp [Event.epochOf] at this
            omega
          · exact g4 hmem
        · intro b hb
          rintro (hmem | hmem)
          · have := epochOf_mem_epochEvents hmem
            simp [Event.epochOf] at this
            omega
          · exact g5 b hb hmem

/-- A numbered snapshot for epoch `e` is written exactly when epoch `e`'s
bookkeeping phase runs (its log line is written), periodic saving is enabled,
`e` is a multiple of the cadence, and the file was absent when the loop
started. -/
theorem writeNumbered_mem_runFrom_iff {cfg : LoopCfg} {esFlag : ℕ → Bool} :
    ∀ {fuel a fs e}, a ≤ e →
      (Event.writeNumberedSnapshot e ∈ runFrom cfg esFlag fuel a fs ↔
        (Event.writeLogLine e ∈ runFrom cfg esFlag fuel a fs ∧
         cfg.save_every ≠ 0 ∧ e % cfg.save_every = 0 ∧ e ∉ fs)) := by
  intro fuel
  induction fuel with
  | zero =>
    intro a fs e _
    simp [runFrom]
  | succ n ih =>
    intro a fs e hae
    rw [runFrom]
    by_cases hs : stopDecision cfg (esFlag a) = true
    · simp only [hs, if_true]
      constructor
      · intro h
        exact absurd h (mem_epochEvents_stop hs e).2.2.1
      · rintro ⟨h, -⟩
        exact absurd h (mem_epochEvents_stop hs e).2.2.2
    · have hs' : stopDecision cfg (esFlag a) = false := by
        cases hsd : stopDecision cfg (esFlag a)
        · rfl
        · exact absurd hsd hs
      simp only [hs', Bool.false_eq_true, if_false, List.mem_append]
      rcases eq_or_lt_of_le hae with heq | hlt
      · subst heq
        have hwn : Event.writeNumberedSnapshot a ∉ runFrom cfg esFlag n (a + 1)
            (if saveDue cfg fs a then a :: fs else fs) := by
          intro hx
          have := le_epochOf_mem_runFrom hx
          simp [Event.epochOf] at this
        have hwl : Event.writeLogLine a ∈ runFrom cfg esFlag n (a + 1)
            (if saveDue cfg fs a then a :: fs else fs) → False := by
          intro hx
          have := le_epochOf_mem_runFrom hx
          simp [Event.epochOf] at this
        constructor
        · rintro (h | h)
          · refine ⟨Or.inl (mem_epochEvents_noStop hs').1, ?_⟩
            exact saveDue_iff.mp ((mem_epochEvents_noStop hs').2.1.mp h)
          · exact absurd h hwn
        · rintro ⟨-, hcond⟩
          exact Or.inl ((mem_epochEvents_noStop hs').2.1.mpr (saveDue_iff.mpr hcond))
      · have hwn : Event.writeNumberedSnapshot e ∉ epochEvents cfg esFlag fs a := by
          intro hx
          have := epochOf_mem_epochEvents hx
          simp [Event.epochOf] at this
          omega
        have hwl : Event.writeLogLine e ∉ epochEvents cfg esFlag fs a := by
          intro hx
          have := epochOf_mem_epochEvents hx
          simp [Event.epochOf] at this
          omega
        have hfs : e ∈ (if saveDue cfg fs a then a :: fs else fs) ↔ e ∈ fs := by
          split
          · simp only [List.mem_cons]
            constructor
            · rintro (rfl | hx)
              · omega
              · exact hx
            · exact Or.inr
          · exact Iff.rfl
        have := @ih (a + 1) (if saveDue cfg fs a then a :: fs else fs) e hlt
        constructor
        · rintro (h | h)
          · exact absurd h hwn
          · have hres := this.mp h
            exact ⟨Or.inr hres.1, hres.2.1, hres.2.2.1, (not_congr hfs).mp hres.2.2.2⟩
        · rintro ⟨hlog | hlog, hc1, hc2, hc3⟩
          · exact absurd hlog hwl
          · exact Or.inr (this.mpr ⟨hlog, hc1, hc2, (not_congr hfs).mpr hc3⟩)

/-! ### Claim theorems -/

/-- C1 counterexample: a rolling snapshot whose mapping stores `"epoch": 3`
makes the restored loop start again at epoch 3, not at 3 + 1 — the completed
epoch is re-executed. -/
theorem latest_snapshot_resume_cex :
    restoredEpochsRun (snapshotEpochField 3) = 3 ∧
    restoredEpochsRun (snapshotEpochField 3) ≠ 3 + 1 ∧
    (runLoop ⟨10, 0, false, 0⟩ (fun _ => false)
        (restoredEpochsRun (snapshotEpochField 3)) []).head? =
      some (Event.trainEpoch 3) := by
  decide

/-- C1 amended: restoring from the rolling `latest` snapshot saved at epoch
`e` resumes the loop at epoch `e` itself — the stored epoch is re-executed —
and no epoch before `e` is re-run. -/
theorem latest_snapshot_resume_restarts_at_saved_epoch (cfg : LoopCfg)
    (esFlag : ℕ → Bool) (fs : List ℕ) (e : ℕ) (h : e < cfg.epochs) :
    restoredEpochsRun (snapshotEpochField e) = e ∧
    (runLoop cfg esFlag (restoredEpochsRun (snapshotEpochField e)) fs).head? =
      some (Event.trainEpoch e) ∧
    ∀ a, a < e →
      Event.trainEpoch a ∉ runLoop cfg esFlag (restoredEpochsRun (snapshotEpochField e)) fs := by
  refine ⟨rfl, ?_, ?_⟩
  · show (runFrom cfg esFlag (cfg.epochs - e) e fs).head? = some (Event.trainEpoch e)
    obtain ⟨k, hk⟩ : ∃ k, cfg.epochs - e = k + 1 := ⟨cfg.epochs - e - 1, by omega⟩
    rw [hk, runFrom]
    by_cases hs : stopDecision cfg (esFlag e) = true
    · simp [hs, epochEvents]
    · simp [hs, epochEvents]
  · intro a ha hmem
    have := le_epochOf_mem_runFrom hmem
    simp [Event.epochOf, restoredEpochsRun, snapshotEpochField] at this
    omega

/-- C1 witness: with 10 configured epochs, restoring a snapshot stored at
epoch 3 makes training start again at epoch 3. -/
theorem latest_snapshot_resume_restarts_witness :
    (runLoop ⟨10, 0, false, 0⟩ (fun _ => true)
        (restoredEpochsRun (snapshotEpochField 3)) []).head? =
      some (Event.trainEpoch 3) :=
  (latest_snapshot_resume_restarts_at_saved_epoch ⟨10, 0, false, 0⟩ (fun _ => true) [] 3
    (by decide)).2.1

/-- C2 counterexample: with tuning enabled and the early-stop flag raised at
epoch 0, the loop breaks although the numbered save was due, and neither the
numbered snapshot nor the epoch-0 log line is ever written. -/
theorem early_stop_skips_epoch_bookkeeping_cex :
    Event.stopBreak 0 ∈ runLoop ⟨5, 1, true, 1⟩ (fun _ => true) 0 [] ∧
    saveDue ⟨5, 1, true, 1⟩ [] 0 = true ∧
    Event.writeNumberedSnapshot 0 ∉ runLoop ⟨5, 1, true, 1⟩ (fun _ => true) 0 [] ∧
    Event.writeLogLine 0 ∉ runLoop ⟨5, 1, true, 1⟩ (fun _ => true) 0 [] := by
  decide

/-- C2 amended: when the stop flag ends the loop at epoch `e`, epoch `e`'s
training and the early-stopping call (which receives the snapshot) have
completed — the loop never aborts mid-epoch and trains no later epoch — but
the epoch-numbered snapshot save and the per-epoch JSON log line for epoch `e`
are skipped, not performed before termination. -/
theorem early_stop_exits_before_bookkeeping (cfg : LoopCfg) (esFlag : ℕ → Bool)
    (epochs_run : ℕ) (fs : List ℕ) (e : ℕ)
    (h : Event.stopBreak e ∈ runLoop cfg esFlag epochs_run fs) :
    Event.trainEpoch e ∈ runLoop cfg esFlag epochs_run fs ∧
    Event.earlyStopCall e ∈ runLoop cfg esFlag epochs_run fs ∧
    Event.writeNumberedSnapshot e ∉ runLoop cfg esFlag epochs_run fs ∧
    Event.writeLogLine e ∉ runLoop cfg esFlag epochs_run fs ∧
    ∀ b, e < b → Event.trainEpoch b ∉ runLoop cfg esFlag epochs_run fs :=
  stopBreak_mem_runFrom_spec h

/-- C2 witness: the amended statement applied at a concrete stopping run. -/
theorem early_stop_exits_before_bookkeeping_witness :
    Event.trainEpoch 1 ∈ runLoop ⟨5, 1, true, 3⟩ (fun a => decide (1 ≤ a)) 0 [] ∧
    Event.writeLogLine 1 ∉ runLoop ⟨5, 1, true, 3⟩ (fun a => decide (1 ≤ a)) 0 [] := by
  have h := early_stop_exits_before_bookkeeping ⟨5, 1, true, 3⟩ (fun a => decide (1 ≤ a))
    0 [] 1 (by decide)
  exact ⟨h.1, h.2.2.2.1⟩

/-- C3 counterexample: with `epochs = 1 < 2 = warmup_epochs` the startup does
fail at the assertion, but only after dataset loading, network construction
and optimizer creation have all run. -/
theorem config_assert_after_resource_allocation_cex :
    (mainStartup 1 2).2.isSome = true ∧
    Phase.loadDataset ∈ (mainStartup 1 2).1 ∧
    Phase.buildNetworks ∈ (mainStartup 1 2).1 ∧
    Phase.buildOptimizer ∈ (mainStartup 1 2).1 := by
  decide

/-- C3 amended: a configuration with `epochs < warmup_epochs` makes `main`
fail with the explicit assertion — fatally, nothing runs after it — before
schedule construction, snapshot loading and the training loop, but after
dataset loading, network construction and optimizer creation. -/
theorem config_assert_fatal_before_schedules (epochs warmup_epochs : ℕ)
    (h : epochs < warmup_epochs) :
    (mainStartup epochs warmup_epochs).2.isSome = true ∧
    (mainStartup epochs warmup_epochs).1 = phasesBeforeAssert ++ [Phase.checkEpochsAssert] ∧
    Phase.buildSchedules ∉ (mainStartup epochs warmup_epochs).1 ∧
    Phase.loadSnapshot ∉ (mainStartup epochs warmup_epochs).1 ∧
    Phase.trainLoop ∉ (mainStartup epochs warmup_epochs).1 := by
  simp only [mainStartup, if_pos h]
  decide

/-- C3 witness: the amended statement at the concrete configuration 1 < 2. -/
theorem config_assert_fatal_before_schedules_witness :
    (mainStartup 1 2).2.isSome = true ∧ Phase.trainLoop ∉ (mainStartup 1 2).1 := by
  have h := config_assert_fatal_before_schedules 1 2 (by decide)
  exact ⟨h.1, h.2.2.2.2⟩

/-- C6: in multi-process mode every rank ends up with rank 0's run identifier
and hence the same output directory, while only rank 0 ever generated one. -/
theorem run_id_generated_on_rank_zero_and_broadcast (gen base : String) (rank : ℕ) :
    runIdAfterStartup true gen rank = gen ∧
    runOutputDir base (runIdAfterStartup true gen rank) = runOutputDir base gen ∧
    (rank ≠ 0 → initialRunId gen rank = "") := by
  refine ⟨rfl, rfl, ?_⟩
  intro h
  simp [initialRunId, h]

/-- C6 witness: rank 1 holds rank 0's identifier after the broadcast, though
it generated none itself. -/
theorem run_id_generated_on_rank_zero_and_broadcast_witness :
    runIdAfterStartup true "2024-01-01_00_00" 1 = "2024-01-01_00_00" ∧
    initialRunId "2024-01-01_00_00" 1 = "" := by
  have h := run_id_generated_on_rank_zero_and_broadcast "2024-01-01_00_00" "output" 1
  exact ⟨h.1, h.2.2 (by decide)⟩

/-- C7 counterexample: epoch 2 is trained, the numbered save is due there
(cadence 2, file absent), yet no `epoch_002.pt` write happens because the stop
flag breaks the loop first. -/
theorem numbered_snapshot_save_iff_cex :
    (⟨5, 1, true, 2⟩ : LoopCfg).save_every ≠ 0 ∧ 2 % 2 = 0 ∧ (2 : ℕ) ∉ ([] : List ℕ) ∧
    Event.trainEpoch 2 ∈ runLoop ⟨5, 1, true, 2⟩ (fun a => a == 2) 0 [] ∧
    Event.writeNumberedSnapshot 2 ∉ runLoop ⟨5, 1, true, 2⟩ (fun a => a == 2) 0 [] := by
  decide

/-- C7 amended: `epoch_e.pt` is written by the coordinating process iff epoch
`e`'s bookkeeping phase runs (the loop did not stop early at `e`, witnessed by
its log line), `save_every` is enabled, `e` is a multiple of `save_every`, and
the file did not exist when the loop started — so an existing numbered file is
never rewritten, and re-running a completed epoch leaves it unchanged. -/
theorem numbered_snapshot_save_iff (cfg : LoopCfg) (esFlag : ℕ → Bool)
    (epochs_run : ℕ) (fs : List ℕ) (e : ℕ) (h : epochs_run ≤ e) :
    Event.writeNumberedSnapshot e ∈ runLoop cfg esFlag epochs_run fs ↔
      (Event.writeLogLine e ∈ runLoop cfg esFlag epochs_run fs ∧
       cfg.save_every ≠ 0 ∧ e % cfg.save_every = 0 ∧ e ∉ fs) :=
  writeNumbered_mem_runFrom_iff h

/-- C7 witness: a run with cadence 2 and no early stop writes `epoch_002.pt`. -/
theorem numbered_snapshot_save_iff_witness :
    Event.writeNumberedSnapshot 2 ∈ runLoop ⟨3, 0, false, 2⟩ (fun _ => false) 0 [] :=
  (numbered_snapshot_save_iff ⟨3, 0, false, 2⟩ (fun _ => false) 0 [] 2 (by decide)).mpr
    ⟨by decide, by decide, by decide, by decide⟩

/-- C8: with `cfg.tune.enable` false the stop flag is never set — whatever the
early-stopping controller reports — so the loop emits no break and trains
every epoch of `range(epochs_run, cfg.optim.epochs)`. -/
theorem tune_disabled_runs_all_epochs (cfg : LoopCfg) (esFlag : ℕ → Bool)
    (epochs_run : ℕ) (fs : List ℕ) (ht : cfg.tune_enable = false) :
    (∀ b, stopDecision cfg b = false) ∧
    (∀ e, Event.stopBreak e ∉ runLoop cfg esFlag epochs_run fs) ∧
    (∀ e, epochs_run ≤ e → e < cfg.epochs →
      Event.trainEpoch e ∈ runLoop cfg esFlag epochs_run fs) := by
  have hstop : ∀ b, stopDecision cfg b = false := by
    intro b
    simp [stopDecision, ht]
  have hstop' : ∀ a, stopDecision cfg (esFlag a) = false := fun a => hstop _
  refine ⟨hstop, ?_, ?_⟩
  · intro e
    exact no_stopBreak_of_no_stop hstop' _ _ _ _
  · intro e h1 h2
    exact runFrom_trains_all_of_no_stop hstop' _ _ _ _ h1 (by omega)

/-- C8 witness: with tuning disabled and the early-stop flag permanently
raised, epoch 2 of 3 is still trained. -/
theorem tune_disabled_runs_all_epochs_witness :
    Event.trainEpoch 2 ∈ runLoop ⟨3, 1, false, 1⟩ (fun _ => true) 0 [] :=
  (tune_disabled_runs_all_epochs ⟨3, 1, false, 1⟩ (fun _ => true) 0 [] rfl).2.2 2
    (by decide) (by decide)

/-- C9: when not resuming, the main process deletes a pre-existing output
directory with all its entries (`shutil.rmtree`) and recreates it empty. -/
theorem no_resume_wipes_existing_output_dir (entries : List String) :
    prepareOutputDir false true { present := true, entries := entries } =
      ({ present := true, entries := [] }, [.rmtree entries, .mkdirParents]) :=
  rfl

/-- C10: the base value handed to the learning-rate schedule generator is
`cfg.optim.lr * (batch_size_per_gpu * world_size) / 256`, which differs from
the configured `lr` whenever `lr ≠ 0` and the total batch size is not 256. -/
theorem lr_schedule_receives_linearly_scaled_lr (lr min_lr : ℚ)
    (batch_size_per_gpu world_size epochs niter_per_ep warmup_epochs : ℕ) :
    (lrScheduleArgs lr min_lr batch_size_per_gpu world_size epochs niter_per_ep
        warmup_epochs).base_value
      = lr * ((batch_size_per_gpu : ℚ) * (world_size : ℚ)) / 256 ∧
    (lr ≠ 0 → batch_size_per_gpu * world_size ≠ 256 →
      (lrScheduleArgs lr min_lr batch_size_per_gpu world_size epochs niter_per_ep
          warmup_epochs).base_value ≠ lr) := by
  refine ⟨rfl, ?_⟩
  intro hlr hbw heq
  have h256 : (256 : ℚ) ≠ 0 := by norm_num
  rw [show (lrScheduleArgs lr min_lr batch_size_per_gpu world_size epochs niter_per_ep
      warmup_epochs).base_value
    = lr * ((batch_size_per_gpu : ℚ) * (world_size : ℚ)) / 256 from rfl,
    div_eq_iff h256] at heq
  have h2 : (batch_size_per_gpu : ℚ) * (world_size : ℚ) = 256 :=
    mul_left_cancel₀ hlr (by linarith [heq])
  apply hbw
  exact_mod_cast h2

/-- C10 witness: with lr 1, per-GPU batch 32 and 4 processes the schedule base
is 1/2, not the configured 1. -/
theorem lr_schedule_receives_linearly_scaled_lr_witness :
    (lrScheduleArgs 1 0 32 4 10 5 2).base_value = 1 * ((32 : ℚ) * (4 : ℚ)) / 256 ∧
    (lrScheduleArgs 1 0 32 4 10 5 2).base_value ≠ 1 := by
  have h := lr_schedule_receives_linearly_scaled_lr 1 0 32 4 10 5 2
  refine ⟨?_, h.2 (by norm_num) (by norm_num)⟩
  have h1 := h.1
  norm_num at h1 ⊢
  exact h1

end Dino
